import Mathlib

/-!
Verification development for the contextual retrieval and orchestration engine
of the jedi-team-challenge chatbot.

Embedding conventions:
* Go `float32` values are modelled as `ℚ`. The square root used by the L2 norm
  is abstracted as a function parameter `sqrt : ℚ → ℚ`, since `ℚ` is not closed
  under square roots; every statement proved below holds for an arbitrary such
  function, and concrete instances pick one that is exact on the inputs used.
* Fallible Go functions returning `(T, error)` become `Except String T` (or an
  explicit error enumeration where the claims name the error).
* The external gateways (embedding model, generation model) are modelled by
  passing their outcome for the call in question as an explicit argument.
* The SQLite store is modelled as in-memory lists; the autoincrement id and the
  timestamp columns are modelled by list position (insertion order), so
  `ORDER BY timestamp ASC` is list order and `ORDER BY timestamp DESC` is
  reversed list order. Store writes are modelled as always succeeding: the
  claims under study condition on gateway behaviour, not on storage faults.
-/

/-- Error cases of the vector utilities (internal/utils): the Go code returns
`fmt.Errorf("vectors must have the same dimension")` (here `dimensionMismatch`)
and `fmt.Errorf("vectors cannot be empty")` (here `emptyVector`). -/
inductive VecError where
  | dimensionMismatch
  | emptyVector
deriving DecidableEq, Repr

/-- Embeds `dotProduct` (utils): errors when the dimensions differ, otherwise
sums the pointwise products left to right. -/
def dotProduct (vec1 vec2 : List ℚ) : Except VecError ℚ :=
  if vec1.length ≠ vec2.length then .error .dimensionMismatch
  else .ok ((List.zipWith (fun a b => a * b) vec1 vec2).foldl (fun acc x => acc + x) 0)

/-- Embeds `magnitude` (utils): the L2 norm, `sqrt` of the sum of squares.
The square root is the abstracted parameter. -/
def magnitude (sqrt : ℚ → ℚ) (vec : List ℚ) : ℚ :=
  sqrt (vec.foldl (fun acc v => acc + v * v) 0)

/-- Embeds `CosineSimilarity` (utils): empty-vector check first, then the
dimension check inside `dotProduct`, then the zero-magnitude guard returning 0,
else the normalized dot product. -/
def CosineSimilarity (sqrt : ℚ → ℚ) (vec1 vec2 : List ℚ) : Except VecError ℚ :=
  if vec1.length = 0 ∨ vec2.length = 0 then .error .emptyVector
  else
    match dotProduct vec1 vec2 with
    | .error e => .error e
    | .ok dp =>
      if magnitude sqrt vec1 = 0 ∨ magnitude sqrt vec2 = 0 then .ok 0
      else .ok (dp / (magnitude sqrt vec1 * magnitude sqrt vec2))

/-- Constant `SimilarityThreshold = 0.7` of internal/core/rag_service.go. -/
def SimilarityThreshold : ℚ := 7/10

/-- Constant `NumRelevantChunks = 3` of internal/core/rag_service.go. -/
def NumRelevantChunks : Nat := 3

/-- Embeds `store.DataChunk` (id, content, embedding); the serialized
`EmbeddingJSON` column is not needed by the claims. -/
structure DataChunk where
  ID : Int
  Content : String
  Embedding : List ℚ
deriving DecidableEq, Repr

/-- Embeds `core.ScoredChunk`. -/
structure ScoredChunk where
  Chunk : DataChunk
  Similarity : ℚ
deriving DecidableEq, Repr

/-- Embeds the scoring loop of `GetRelevantContext` (rag_service.go lines
59-74): chunks with an empty embedding are skipped, similarity errors are
skipped, and a chunk is kept exactly when its similarity is `≥` the
threshold. -/
def scoreChunks (sqrt : ℚ → ℚ) (queryEmbedding : List ℚ) : List DataChunk → List ScoredChunk
  | [] => []
  | chunk :: rest =>
    if chunk.Embedding.length = 0 then scoreChunks sqrt queryEmbedding rest
    else
      match CosineSimilarity sqrt queryEmbedding chunk.Embedding with
      | .error _ => scoreChunks sqrt queryEmbedding rest
      | .ok s =>
        if s ≥ SimilarityThreshold then ⟨chunk, s⟩ :: scoreChunks sqrt queryEmbedding rest
        else scoreChunks sqrt queryEmbedding rest

/-- The similarity score the ranker associates to one chunk, when it has one:
`none` when the embedding is empty or the similarity computation fails. -/
def chunkScore (sqrt : ℚ → ℚ) (queryEmbedding : List ℚ) (c : DataChunk) : Option ℚ :=
  if c.Embedding.length = 0 then none
  else
    match CosineSimilarity sqrt queryEmbedding c.Embedding with
    | .error _ => none
    | .ok s => some s

/-- Declarative form of the kept-chunk list, following the words of the spec:
the chunks whose similarity to the query is at least the threshold, in
original index order. -/
def relevantChunks (sqrt : ℚ → ℚ) (queryEmbedding : List ℚ) (chunks : List DataChunk) :
    List ScoredChunk :=
  chunks.filterMap fun c =>
    match chunkScore sqrt queryEmbedding c with
    | none => none
    | some s => if s ≥ SimilarityThreshold then some ⟨c, s⟩ else none

/-- Stable insertion of a scored chunk into a similarity-descending list: the
new element moves ahead of an existing one only when strictly more similar.
This is the comparison `scoredChunks[i].Similarity > scoredChunks[j].Similarity`
the Go code hands to `sort.Slice`, realized by the insertion sort that
`sort.Slice` itself runs on slices of at most 12 elements. `sort.Slice` does
not promise stability for longer slices (see the C2 analysis); every property
proved here about the sorted list is its descending order, which Go does
guarantee. -/
def insertDescending (c : ScoredChunk) : List ScoredChunk → List ScoredChunk
  | [] => [c]
  | y :: ys => if c.Similarity > y.Similarity then c :: y :: ys else y :: insertDescending c ys

/-- The sort of `GetRelevantContext` (rag_service.go lines 77-79): order by
similarity, descending. -/
def sortBySimilarityDesc (l : List ScoredChunk) : List ScoredChunk :=
  l.foldl (fun acc c => insertDescending c acc) []

/-- White space as Go `unicode.IsSpace` treats it on the Latin-1 range
(space, tab, newline, vertical tab, form feed, carriage return, NEL, NBSP). -/
def isGoSpace (ch : Char) : Bool :=
  ch.val = 32 || ch.val = 9 || ch.val = 10 || ch.val = 11 || ch.val = 12 ||
  ch.val = 13 || ch.val = 133 || ch.val = 160

/-- Drops trailing white space from a character list. -/
def goTrimRightList (l : List Char) : List Char :=
  (l.reverse.dropWhile isGoSpace).reverse

/-- Embeds Go `strings.TrimSpace`: removes leading and trailing white space. -/
def goTrimSpace (s : String) : String :=
  String.mk (goTrimRightList (s.data.dropWhile isGoSpace))

/-- Removal of trailing white space only; this is the operation the spec
sentence "trim trailing whitespace" describes, used to state C1 as written. -/
def goTrimRight (s : String) : String :=
  String.mk (goTrimRightList s.data)

/-- Embeds the context-building loop of `GetRelevantContext` (rag_service.go
lines 81-87): walk the sorted list while fewer than `NumRelevantChunks` chunks
have been written, appending each content followed by a blank-line
separator. Returns the builder content and the final `retrievedCount`. -/
def buildContext : List ScoredChunk → Nat → String → String × Nat
  | [], retrievedCount, acc => (acc, retrievedCount)
  | sc :: rest, retrievedCount, acc =>
    if retrievedCount < NumRelevantChunks then
      buildContext rest (retrievedCount + 1) (acc ++ sc.Chunk.Content ++ "\n\n")
    else (acc, retrievedCount)

/-- Concatenation of the texts of a list of scored chunks, each followed by a
blank-line separator (the declarative description used by the claims). -/
def contextFromChunks : List ScoredChunk → String
  | [] => ""
  | sc :: rest => sc.Chunk.Content ++ "\n\n" ++ contextFromChunks rest

/-- Embeds `RAGService.GetRelevantContext`. The query embedding is obtained
from the embedding gateway; its outcome for this call is the argument
`embedResult`. An empty index returns an empty context before the gateway is
consulted; a gateway failure is propagated; otherwise chunks are scored,
filtered by the threshold, sorted descending, and the top `NumRelevantChunks`
are concatenated and trimmed, with an empty result when nothing passed. -/
def GetRelevantContext (sqrt : ℚ → ℚ) (dataChunks : List DataChunk)
    (embedResult : Except String (List ℚ)) : Except String String :=
  if dataChunks.length = 0 then .ok ""
  else
    match embedResult with
    | .error e => .error ("failed to get query embedding: " ++ e)
    | .ok queryEmbedding =>
      let scoredChunks := sortBySimilarityDesc (scoreChunks sqrt queryEmbedding dataChunks)
      match buildContext scoredChunks 0 "" with
      | (ctx, retrievedCount) =>
        if retrievedCount = 0 then .ok "" else .ok (goTrimSpace ctx)

/-- A square root valid on the inputs of the concrete scenarios below:
exact on 0, 1 and 25. -/
def scenarioSqrt : ℚ → ℚ := fun x => if x = 25 then 5 else x

lemma scoreChunks_eq_relevantChunks (sqrt : ℚ → ℚ) (q : List ℚ) :
    ∀ chunks : List DataChunk, scoreChunks sqrt q chunks = relevantChunks sqrt q chunks := by
  intro chunks
  induction chunks with
  | nil => rfl
  | cons c rest ih =>
    by_cases h : c.Embedding.length = 0
    · simp only [scoreChunks, relevantChunks, chunkScore, List.filterMap_cons, if_pos h, ih]
    · cases hcs : CosineSimilarity sqrt q c.Embedding with
      | error e =>
        simp only [scoreChunks, relevantChunks, chunkScore, List.filterMap_cons,
          if_neg h, hcs, ih]
      | ok s =>
        by_cases hth : s ≥ SimilarityThreshold
        · simp only [scoreChunks, relevantChunks, chunkScore, List.filterMap_cons,
            if_neg h, hcs, if_pos hth, ih]
        · simp only [scoreChunks, relevantChunks, chunkScore, List.filterMap_cons,
            if_neg h, hcs, if_neg hth, ih]

lemma buildContext_eq (l : List ScoredChunk) :
    ∀ (cnt : Nat) (acc : String),
      buildContext l cnt acc
        = (acc ++ contextFromChunks (l.take (NumRelevantChunks - cnt)),
           cnt + (l.take (NumRelevantChunks - cnt)).length) := by
  induction l with
  | nil => intro cnt acc; simp [buildContext, contextFromChunks]
  | cons sc rest ih =>
    intro cnt acc
    by_cases h : cnt < NumRelevantChunks
    · have hk : NumRelevantChunks - cnt = (NumRelevantChunks - (cnt + 1)) + 1 := by omega
      rw [buildContext, if_pos h, ih, hk, List.take_succ_cons, contextFromChunks]
      rw [Prod.mk.injEq]
      constructor
      · simp [String.append_assoc]
      · simp only [List.length_cons]
        omega
    · have hk : NumRelevantChunks - cnt = 0 := by omega
      rw [buildContext, if_neg h, hk]
      simp [contextFromChunks]

lemma chain'_insertDescending (c : ScoredChunk) :
    ∀ l : List ScoredChunk,
      List.Chain' (fun a b => b.Similarity ≤ a.Similarity) l →
      List.Chain' (fun a b => b.Similarity ≤ a.Similarity) (insertDescending c l) := by
  intro l
  induction l with
  | nil => intro _; simp [insertDescending]
  | cons y ys ih =>
    intro h
    rw [insertDescending]
    by_cases hc : c.Similarity > y.Similarity
    · rw [if_pos hc]
      exact List.chain'_cons.mpr ⟨le_of_lt hc, h⟩
    · rw [if_neg hc]
      have hyc : c.Similarity ≤ y.Similarity := not_lt.mp hc
      cases ys with
      | nil =>
        simp only [insertDescending]
        exact List.chain'_cons.mpr ⟨hyc, List.chain'_singleton c⟩
      | cons z zs =>
        have hchain := List.chain'_cons.mp h
        have hrec := ih hchain.2
        rw [insertDescending]
        by_cases hcz : c.Similarity > z.Similarity
        · rw [if_pos hcz]
          exact List.chain'_cons.mpr ⟨hyc, List.chain'_cons.mpr ⟨le_of_lt hcz, hchain.2⟩⟩
        · rw [if_neg hcz]
          rw [insertDescending, if_neg hcz] at hrec
          exact List.chain'_cons.mpr ⟨hchain.1, hrec⟩

lemma chain'_sortBySimilarityDesc (l : List ScoredChunk) :
    List.Chain' (fun a b => b.Similarity ≤ a.Similarity) (sortBySimilarityDesc l) := by
  rw [sortBySimilarityDesc]
  suffices h : ∀ acc : List ScoredChunk,
      List.Chain' (fun a b => b.Similarity ≤ a.Similarity) acc →
      List.Chain' (fun a b => b.Similarity ≤ a.Similarity)
        (l.foldl (fun acc c => insertDescending c acc) acc) by
    exact h [] List.chain'_nil
  induction l with
  | nil => intro acc hacc; exact hacc
  | cons c rest ih =>
    intro acc hacc
    exact ih _ (chain'_insertDescending c acc hacc)

lemma getRelevantContext_eq (sqrt : ℚ → ℚ) (chunks : List DataChunk) (q : List ℚ) :
    GetRelevantContext sqrt chunks (.ok q)
      = .ok (goTrimSpace (contextFromChunks
          ((sortBySimilarityDesc (relevantChunks sqrt q chunks)).take NumRelevantChunks))) := by
  rw [GetRelevantContext]
  by_cases hc : chunks.length = 0
  · rw [if_pos hc]
    have hnil : chunks = [] := List.length_eq_zero.mp hc
    subst hnil
    rfl
  · rw [if_neg hc]
    simp only [scoreChunks_eq_relevantChunks, buildContext_eq, Nat.sub_zero, Nat.zero_add]
    by_cases h0 : ((sortBySimilarityDesc (relevantChunks sqrt q chunks)).take NumRelevantChunks).length = 0
    · have hnil : (sortBySimilarityDesc (relevantChunks sqrt q chunks)).take NumRelevantChunks = [] :=
        List.length_eq_zero.mp h0
      rw [hnil]
      rfl
    · rw [if_neg h0]
      congr 1

/-- The identity function serves as a square root valid on the fixed points 0
and 1, the only values it is applied to in the concrete instances using it. -/
def idSqrt : ℚ → ℚ := fun x => x

/-- A relevant chunk whose text begins with white space, separating the
trailing-only trim described by the spec from the two-sided trim the code
performs. -/
def leadingSpaceChunk : DataChunk := ⟨1, " x", [1]⟩

/-- C1, counterexample: on an index holding one chunk with similarity 1 whose
text is " x", the code returns "x" (strings.TrimSpace removes the leading
space as well), while building the context from the kept chunks with only
trailing white space trimmed, as the claim states, yields " x". -/
theorem getRelevantContext_trailing_trim_counterexample :
    GetRelevantContext idSqrt [leadingSpaceChunk] (.ok [1]) = .ok "x"
    ∧ goTrimRight (contextFromChunks
        ((sortBySimilarityDesc (relevantChunks idSqrt [1] [leadingSpaceChunk])).take
          NumRelevantChunks)) = " x"
    ∧ ("x" : String) ≠ " x" := by
  refine ⟨by with_unfolding_all rfl, by with_unfolding_all rfl, by decide⟩

/-- C1 (amended: the concatenation is trimmed of leading and trailing white
space, not only trailing): for every query embedding and chunk index, the
context is exactly the texts of the chunks scoring at least the 0.7
threshold, sorted by similarity descending, truncated to the first 3, each
followed by a blank-line separator, with surrounding white space trimmed;
the sorted list is descending; and on the two-chunk scenario with
similarities 0.96 and 0.28 the context is exactly the first chunk's text. -/
theorem getRelevantContext_threshold_sort_take_trim :
    (∀ (sqrt : ℚ → ℚ) (chunks : List DataChunk) (q : List ℚ),
        GetRelevantContext sqrt chunks (.ok q)
          = .ok (goTrimSpace (contextFromChunks
              ((sortBySimilarityDesc (relevantChunks sqrt q chunks)).take NumRelevantChunks)))
        ∧ List.Chain' (fun a b => b.Similarity ≤ a.Similarity)
            (sortBySimilarityDesc (relevantChunks sqrt q chunks)))
    ∧ GetRelevantContext scenarioSqrt
        [⟨1, "Paris is the capital of France", [4, 3]⟩, ⟨2, "The sky is blue", [-3, 4]⟩]
        (.ok [3, 4]) = .ok "Paris is the capital of France" := by
  refine ⟨fun sqrt chunks q =>
    ⟨getRelevantContext_eq sqrt chunks q, chain'_sortBySimilarityDesc _⟩, ?_⟩
  with_unfolding_all rfl

/-- C6, counterexample: for the pair `[]`, `[1]` the lengths differ (0 and 1),
yet CosineSimilarity reports the empty-vector error, not the dimension
mismatch the claim requires for every pair of different lengths: the
empty-vector check runs first. -/
theorem cosineSimilarity_empty_beats_dimension_counterexample :
    ([] : List ℚ).length ≠ [(1 : ℚ)].length
    ∧ CosineSimilarity idSqrt [] [1] = .error .emptyVector
    ∧ VecError.emptyVector ≠ VecError.dimensionMismatch := by
  refine ⟨by decide, by with_unfolding_all rfl, by decide⟩

/-- C6 (amended: the dimension-mismatch error is reported only when both
inputs are non-empty, since the empty-vector check runs first): mismatched
lengths of non-empty vectors give DimensionMismatch; an empty input gives
EmptyVector; equal non-zero lengths with a zero magnitude give 0 with no
error. -/
theorem cosineSimilarity_error_cases :
    ∀ (sqrt : ℚ → ℚ) (a b : List ℚ),
      (a ≠ [] → b ≠ [] → a.length ≠ b.length →
        CosineSimilarity sqrt a b = .error .dimensionMismatch)
      ∧ ((a = [] ∨ b = []) → CosineSimilarity sqrt a b = .error .emptyVector)
      ∧ (a ≠ [] → b ≠ [] → a.length = b.length →
          (magnitude sqrt a = 0 ∨ magnitude sqrt b = 0) →
          CosineSimilarity sqrt a b = .ok 0) := by
  intro sqrt a b
  refine ⟨?_, ?_, ?_⟩
  · intro ha hb hlen
    have ha0 : a.length ≠ 0 := fun h => ha (List.length_eq_zero.mp h)
    have hb0 : b.length ≠ 0 := fun h => hb (List.length_eq_zero.mp h)
    rw [CosineSimilarity, if_neg (by tauto), dotProduct, if_pos hlen]
  · intro h
    have hlen : a.length = 0 ∨ b.length = 0 := by
      rcases h with h | h
      · exact Or.inl (by rw [h]; rfl)
      · exact Or.inr (by rw [h]; rfl)
    rw [CosineSimilarity, if_pos hlen]
  · intro ha hb hlen hmag
    have ha0 : a.length ≠ 0 := fun h => ha (List.length_eq_zero.mp h)
    have hb0 : b.length ≠ 0 := fun h => hb (List.length_eq_zero.mp h)
    have hne : ¬(a.length ≠ b.length) := fun h => h hlen
    rw [CosineSimilarity, if_neg (by tauto), dotProduct, if_neg hne]
    dsimp only
    rw [if_pos hmag]

/-- C6 witness: the three cases of cosineSimilarity_error_cases at concrete
inputs. -/
theorem cosineSimilarity_error_cases_witness :
    CosineSimilarity idSqrt [1] [1, 2] = .error .dimensionMismatch
    ∧ CosineSimilarity idSqrt [] [1] = .error .emptyVector
    ∧ CosineSimilarity (fun _ => 0) [1] [2] = .ok 0 := by
  refine ⟨(cosineSimilarity_error_cases idSqrt [1] [1, 2]).1 (by decide) (by decide) (by decide),
    (cosineSimilarity_error_cases idSqrt [] [1]).2.1 (Or.inl rfl),
    (cosineSimilarity_error_cases (fun _ => 0) [1] [2]).2.2 (by decide) (by decide) rfl
      (Or.inl rfl)⟩

/-- C7: an empty index returns an empty context with no error, before the
embedding gateway is even consulted; and when no chunk of the index reaches
the similarity threshold, the result is also an empty context with no
error. -/
theorem getRelevantContext_empty_or_below_threshold :
    (∀ (sqrt : ℚ → ℚ) (embedResult : Except String (List ℚ)),
        GetRelevantContext sqrt [] embedResult = .ok "")
    ∧ (∀ (sqrt : ℚ → ℚ) (chunks : List DataChunk) (q : List ℚ),
        (∀ c ∈ chunks, ∀ s : ℚ, chunkScore sqrt q c = some s → s < SimilarityThreshold) →
        GetRelevantContext sqrt chunks (.ok q) = .ok "") := by
  refine ⟨fun sqrt e => rfl, fun sqrt chunks q h => ?_⟩
  have hrel : relevantChunks sqrt q chunks = [] := by
    rw [relevantChunks, List.filterMap_eq_nil_iff]
    intro c hc
    cases hsc : chunkScore sqrt q c with
    | none => rfl
    | some s =>
      have hlt := h c hc s hsc
      simp only [hsc]
      rw [if_neg (not_le.mpr hlt)]
  rw [getRelevantContext_eq, hrel]
  rfl

/-- A chunk whose similarity to the query [-1] used in the C7 witness is -1,
below the threshold. -/
def lowScoreChunk : DataChunk := ⟨1, "a", [1]⟩

/-- C7 witness: an empty index (with a failing embedding gateway), and a
one-chunk index whose only similarity is -1 < 0.7. -/
theorem getRelevantContext_empty_or_below_threshold_witness :
    GetRelevantContext idSqrt [] (.error "no gateway") = .ok ""
    ∧ GetRelevantContext idSqrt [lowScoreChunk] (.ok [-1]) = .ok "" := by
  refine ⟨getRelevantContext_empty_or_below_threshold.1 idSqrt (.error "no gateway"),
    getRelevantContext_empty_or_below_threshold.2 idSqrt [lowScoreChunk] [-1] ?_⟩
  intro c hc s hsc
  have hc' : c = lowScoreChunk := by simpa using hc
  subst hc'
  have hval : chunkScore idSqrt [-1] lowScoreChunk = some (-1) := by with_unfolding_all rfl
  rw [hval] at hsc
  have hs : s = -1 := by injection hsc with h; exact h.symm
  subst hs
  norm_num [SimilarityThreshold]

/-- C9: cosine similarity is symmetric for vectors of equal non-zero length:
the dot product, the two magnitudes, and every check are symmetric in the two
arguments. -/
theorem cosineSimilarity_symm :
    ∀ (sqrt : ℚ → ℚ) (a b : List ℚ), a.length = b.length → a.length ≠ 0 →
      CosineSimilarity sqrt a b = CosineSimilarity sqrt b a := by
  intro sqrt a b hlen hnz
  have hdot : dotProduct a b = dotProduct b a := by
    rw [dotProduct, dotProduct, if_neg (fun h => h hlen), if_neg (fun h => h hlen.symm)]
    rw [List.zipWith_comm_of_comm (fun x y => x * y) mul_comm]
  have hb0 : b.length ≠ 0 := by rw [← hlen]; exact hnz
  rw [CosineSimilarity, CosineSimilarity, if_neg (by tauto), if_neg (by tauto), hdot]
  cases hd : dotProduct b a with
  | error e => rfl
  | ok dp =>
    dsimp only
    by_cases hm : magnitude sqrt a = 0 ∨ magnitude sqrt b = 0
    · rw [if_pos hm, if_pos hm.symm]
    · rw [if_neg hm, if_neg (fun h => hm h.symm), mul_comm]

/-- C9 witness: symmetry at the concrete pair [1,2], [2,1]. -/
theorem cosineSimilarity_symm_witness :
    ([1, 2] : List ℚ).length = ([2, 1] : List ℚ).length
    ∧ ([1, 2] : List ℚ).length ≠ 0
    ∧ CosineSimilarity idSqrt [1, 2] [2, 1] = CosineSimilarity idSqrt [2, 1] [1, 2] :=
  ⟨rfl, by decide, cosineSimilarity_symm idSqrt [1, 2] [2, 1] rfl (by decide)⟩

/-- Does the first list start with the second one (used to embed the Go
substring tests)? -/
def listStartsWith : List Char → List Char → Bool
  | _, [] => true
  | [], _ :: _ => false
  | c :: cs, d :: ds => c == d && listStartsWith cs ds

/-- Does the haystack contain the needle as a contiguous subsequence?
Embeds Go `strings.Contains`. -/
def listContainsSeq (needle : List Char) : List Char → Bool
  | [] => needle.isEmpty
  | c :: rest => listStartsWith (c :: rest) needle || listContainsSeq needle rest

/-- Go `strings.Contains` on strings. -/
def strContains (s sub : String) : Bool :=
  listContainsSeq sub.data s.data

/-- Go `strings.HasPrefix` on strings. -/
def strStartsWith (s pre : String) : Bool :=
  listStartsWith s.data pre.data

/-- Go `strings.HasSuffix` on strings. -/
def strEndsWith (s suf : String) : Bool :=
  listStartsWith s.data.reverse suf.data.reverse

/-- Go `strings.ToLower` (ASCII case mapping suffices for the claims). -/
def strToLower (s : String) : String :=
  String.mk (s.data.map Char.toLower)

/-- Go `strings.Split` with a one-character separator, on character lists:
always yields one more piece than there are separators. -/
def splitOnChar (sep : Char) : List Char → List (List Char)
  | [] => [[]]
  | c :: rest =>
    if c == sep then [] :: splitOnChar sep rest
    else
      match splitOnChar sep rest with
      | [] => [[c]]
      | piece :: more => (c :: piece) :: more

/-- Go `strings.Split` with a one-character separator, on strings. -/
def strSplitOnChar (sep : Char) (s : String) : List String :=
  (splitOnChar sep s.data).map String.mk

/-- Embeds the per-line row parser of `IngestDataFromFile` (part of the store,
lines 338-379): trim the line; skip blank lines; skip the table header at
index 0 and the separator at index 1; accept a `| cell |` row with at least
two separators whose trimmed cell is non-empty; skip everything else. -/
def parseLine (i : Nat) (line : String) : Option String :=
  let trimmedLine := goTrimSpace line
  if trimmedLine = "" then none
  else if i == 0 && strContains trimmedLine "|"
      && (strContains (strToLower trimmedLine) "text"
          || strContains (strToLower trimmedLine) "content") then none
  else if i == 1 && strContains trimmedLine "|" && strContains trimmedLine "---" then none
  else if strStartsWith trimmedLine "|" && strEndsWith trimmedLine "|" then
    let parts := strSplitOnChar '|' trimmedLine
    if parts.length ≥ 3 then
      let cellContent := goTrimSpace (parts.getD 1 "")
      if cellContent = "" then none else some cellContent
    else none
  else none

/-- The list of valid content rows (raw chunks) of a tabular source document:
the file split into lines, each line run through the row parser with its
index. -/
def rawChunksOfContent (fileContent : String) : List String :=
  (strSplitOnChar '\n' fileContent).enum.filterMap fun p => parseLine p.1 p.2

/-- Is an `Except` value a success? -/
def exceptIsOk {ε α : Type} : Except ε α → Bool
  | .ok _ => true
  | .error _ => false

/-- Embeds the embedding loop of `IngestDataFromFile` (store, lines 392-418):
chunks are embedded sequentially; a failing embedding call skips that single
chunk; a successful one is stored (the autoincrement id is one more than the
number already stored) and counted. The fixed 40ms pacing tick has no
functional effect and is not modelled. -/
def ingestLoop (embedder : String → Except String (List ℚ)) :
    List String → List DataChunk → Nat → Nat × List DataChunk
  | [], stored, count => (count, stored)
  | rawChunk :: rest, stored, count =>
    match embedder rawChunk with
    | .error _ => ingestLoop embedder rest stored count
    | .ok embedding =>
      ingestLoop embedder rest
        (stored ++ [⟨Int.ofNat stored.length + 1, rawChunk, embedding⟩]) (count + 1)

/-- Embeds `SQLiteStore.IngestDataFromFile`. The file content is passed
directly (the `os.ReadFile` that produced it is outside the model) and the
store is the list of persisted chunks; reading and clearing are modelled as
succeeding, which is why no `.error` branch remains. If no raw chunks parse,
the function returns 0 *without clearing the store*; otherwise the store is
cleared and the embedding loop fills it afresh. -/
def IngestDataFromFile (fileContent : String) (embedder : String → Except String (List ℚ))
    (existingChunks : List DataChunk) : Except String (Nat × List DataChunk) :=
  if (rawChunksOfContent fileContent).length = 0 then .ok (0, existingChunks)
  else .ok (ingestLoop embedder (rawChunksOfContent fileContent) [] 0)

lemma ingestLoop_spec (embedder : String → Except String (List ℚ)) :
    ∀ (cs : List String) (stored : List DataChunk) (count : Nat),
      (ingestLoop embedder cs stored count).1
          = count + (cs.filter (fun c => exceptIsOk (embedder c))).length
      ∧ (ingestLoop embedder cs stored count).2.map (fun c => c.Content)
          = stored.map (fun c => c.Content) ++ cs.filter (fun c => exceptIsOk (embedder c)) := by
  intro cs
  induction cs with
  | nil => intro stored count; simp [ingestLoop]
  | cons c rest ih =>
    intro stored count
    cases he : embedder c with
    | error e =>
      have hfc : List.filter (fun x => exceptIsOk (embedder x)) (c :: rest)
          = List.filter (fun x => exceptIsOk (embedder x)) rest := by
        rw [List.filter_cons, if_neg (by rw [he]; exact Bool.false_ne_true)]
      have hil : ingestLoop embedder (c :: rest) stored count
          = ingestLoop embedder rest stored count := by
        rw [ingestLoop, he]
      rw [hil, hfc]
      exact ih stored count
    | ok emb =>
      have hfc : List.filter (fun x => exceptIsOk (embedder x)) (c :: rest)
          = c :: List.filter (fun x => exceptIsOk (embedder x)) rest := by
        rw [List.filter_cons, if_pos (show exceptIsOk (embedder c) = true by rw [he]; rfl)]
      have hil : ingestLoop embedder (c :: rest) stored count
          = ingestLoop embedder rest
              (stored ++ [⟨Int.ofNat stored.length + 1, c, emb⟩]) (count + 1) := by
        rw [ingestLoop, he]
      rw [hil, hfc]
      constructor
      · rw [(ih _ _).1, List.length_cons]
        omega
      · rw [(ih _ _).2, List.map_append, List.append_assoc]
        rfl

/-- C8: ingestion returns the number of raw chunks whose embedding call
succeeded; the stored chunks are exactly those rows in order (when any row
parsed, the store having been cleared first); a document with no valid rows
leaves the store untouched and returns 0; and when every embedding call
succeeds the count equals the number N of valid content rows. The result is
always a success (`.ok`), so zero ingested chunks is not an error. -/
theorem ingestDataFromFile_counts :
    ∀ (fileContent : String) (embedder : String → Except String (List ℚ))
      (existingChunks : List DataChunk),
      ∃ stored : List DataChunk,
        IngestDataFromFile fileContent embedder existingChunks
          = .ok (((rawChunksOfContent fileContent).filter
                    (fun c => exceptIsOk (embedder c))).length, stored)
        ∧ (rawChunksOfContent fileContent ≠ [] →
            stored.map (fun c => c.Content)
              = (rawChunksOfContent fileContent).filter (fun c => exceptIsOk (embedder c)))
        ∧ (rawChunksOfContent fileContent = [] → stored = existingChunks)
        ∧ ((∀ c ∈ rawChunksOfContent fileContent, exceptIsOk (embedder c) = true) →
            ((rawChunksOfContent fileContent).filter (fun c => exceptIsOk (embedder c))).length
              = (rawChunksOfContent fileContent).length) := by
  intro fileContent embedder existingChunks
  by_cases h : (rawChunksOfContent fileContent).length = 0
  · have hnil : rawChunksOfContent fileContent = [] := List.length_eq_zero.mp h
    refine ⟨existingChunks, ?_, fun hne => absurd hnil hne, fun _ => rfl, fun _ => ?_⟩
    · rw [IngestDataFromFile, if_pos h, hnil]
      rfl
    · rw [hnil]
      rfl
  · refine ⟨(ingestLoop embedder (rawChunksOfContent fileContent) [] 0).2, ?_, fun _ => ?_,
      fun hnil => absurd (by rw [hnil]; rfl) h, fun hall => by rw [List.filter_eq_self.mpr hall]⟩
    · rw [IngestDataFromFile, if_neg h]
      congr 1
      have h1 := (ingestLoop_spec embedder (rawChunksOfContent fileContent) [] 0).1
      rw [Nat.zero_add] at h1
      exact Prod.ext h1 rfl
    · have h2 := (ingestLoop_spec embedder (rawChunksOfContent fileContent) [] 0).2
      simpa using h2

/-- A small tabular source document: header, separator, two content rows. -/
def sampleMarkdownTable : String :=
  "| text |\n| --- |\n| Paris is nice |\n| Rome is old |"

/-- An embedding gateway that succeeds on every call. -/
def constEmbedder : String → Except String (List ℚ) := fun _ => .ok [1]

/-- C8 witness: the sample document has 2 valid content rows; with an
all-succeeding embedder, ingestion returns .ok with count 2 and stores
exactly those two rows. -/
theorem ingestDataFromFile_counts_witness :
    ∃ stored : List DataChunk,
      IngestDataFromFile sampleMarkdownTable constEmbedder [] = .ok (2, stored)
      ∧ stored.map (fun c => c.Content) = ["Paris is nice", "Rome is old"] := by
  obtain ⟨stored, h1, h2, h3, h4⟩ :=
    ingestDataFromFile_counts sampleMarkdownTable constEmbedder []
  have hraw : rawChunksOfContent sampleMarkdownTable = ["Paris is nice", "Rome is old"] := by
    with_unfolding_all rfl
  have hfilter : (rawChunksOfContent sampleMarkdownTable).filter
      (fun c => exceptIsOk (constEmbedder c)) = ["Paris is nice", "Rome is old"] := by
    rw [hraw]
    rfl
  refine ⟨stored, ?_, ?_⟩
  · rw [h1, hfilter]
    rfl
  · have hne : rawChunksOfContent sampleMarkdownTable ≠ [] := by
      rw [hraw]
      exact List.cons_ne_nil _ _
    rw [h2 hne, hfilter]

/-- Embeds `store.Chat` (id, owner, optional title); `createdAt` is modelled
by position in the chat list. -/
structure Chat where
  ID : String
  UserID : Int
  Title : Option String
deriving DecidableEq, Repr

/-- Embeds `store.Message` (chat id, sender, content); the uuid and the
timestamp the store assigns are modelled by position in the message list,
and `negativeFeedback` (always false on creation) is omitted. -/
structure Message where
  ChatID : String
  Sender : String
  Content : String
deriving DecidableEq, Repr

/-- The persistence layer: chats and messages in insertion order. -/
structure DB where
  chats : List Chat
  messages : List Message
deriving DecidableEq, Repr

/-- Embeds `SQLiteStore.GetChatByID`: the chat with this id owned by this
user, or none. -/
def GetChatByID (db : DB) (chatID : String) (userID : Int) : Option Chat :=
  db.chats.find? fun c => c.ID == chatID && c.UserID == userID

/-- Embeds `SQLiteStore.CreateMessage`: append (the store assigns uuid and
timestamp; write modelled as succeeding). -/
def CreateMessage (db : DB) (msg : Message) : DB :=
  { db with messages := db.messages ++ [msg] }

/-- All messages of one chat, in chronological (insertion) order: this is
`GetMessagesByChatID`, `ORDER BY timestamp ASC`. -/
def messagesByChat (db : DB) (chatID : String) : List Message :=
  db.messages.filter fun m => m.ChatID == chatID

/-- Embeds `SQLiteStore.GetLastNMessagesByChatID`, `ORDER BY timestamp DESC
LIMIT n`: the chat's messages most recent first, truncated to n. -/
def GetLastNMessagesByChatID (db : DB) (chatID : String) (n : Nat) : List Message :=
  (messagesByChat db chatID).reverse.take n

/-- One part of a generation-gateway response (`genai.Part`): text, or some
non-text part, which the response reader skips. -/
inductive GenAIPart where
  | text (s : String)
  | nonText
deriving DecidableEq, Repr

/-- A generation-gateway response as `GetChatCompletion` inspects it: `none`
collapses `resp == nil`, no candidates and nil content (all read identically);
`some parts` is `resp.Candidates[0].Content.Parts`. -/
abbrev GenAIResponse := Option (List GenAIPart)

/-- One entry of the prompt history handed to the gateway (`genai.Content`
whose parts are a single text, which is how `GenerateResponse` builds every
entry). -/
structure PromptContent where
  Role : String
  Text : String
deriving DecidableEq, Repr

/-- The canned reply `GetChatCompletion` substitutes for an empty gateway
response (no candidates / empty parts). -/
def emptyResponseMessage : String :=
  "I\x27m sorry, I couldn\x27t generate a response at this time. Please try again."

/-- The canned reply `GetChatCompletion` substitutes when the parts held no
text. -/
def nonTextResponseMessage : String :=
  "I received an empty or non-text response, please try rephrasing your question."

/-- The fixed fallback apology `PostMessage` persists when response
generation fails. -/
def postMessageFallback : String :=
  "I\x27m sorry, I encountered an error while processing your request."

/-- The fixed fallback `CreateChat` persists when the initial response
generation fails (a different string than the PostMessage one). -/
def createChatFallback : String :=
  "I encountered an issue trying to respond. Please try again."

/-- The concatenation of the text parts of a response, in order, skipping
non-text parts (the `responseText` builder loop of `GetChatCompletion`). -/
def partsText (parts : List GenAIPart) : String :=
  parts.foldl (fun acc p =>
    match p with
    | .text txt => acc ++ txt
    | .nonText => acc) ""

/-- Embeds `LLMService.GetChatCompletion`. `sendResult` is the outcome of the
`SendMessage` call to the gateway. Empty history and a non-user final turn
are rejected; a transport error is propagated; an empty response and an
all-non-text response are replaced by canned messages with **no** error. -/
def GetChatCompletion (sendResult : Except String GenAIResponse)
    (promptHistory : List PromptContent) : Except String String :=
  match promptHistory.getLast? with
  | none => .error "prompt history is empty for chat completion"
  | some lastUserMessage =>
    if lastUserMessage.Role ≠ "user" then
      .error "last message in history is not from \x27user\x27, cannot proceed with chat completion"
    else
      match sendResult with
      | .error e => .error ("gemini chat SendMessage failed: " ++ e)
      | .ok none => .ok emptyResponseMessage
      | .ok (some parts) =>
        if parts.length = 0 then .ok emptyResponseMessage
        else
          if (partsText parts).length = 0 then .ok nonTextResponseMessage
          else .ok (partsText parts)

/-- The prompt `GenerateResponse` assembles: the last 5 stored messages of the
chat in the order the store returned them (most recent first), followed by a
final user turn carrying either context plus question or question only. -/
def assembledPrompt (sqrt : ℚ → ℚ) (dataChunks : List DataChunk)
    (embedResult : Except String (List ℚ)) (db : DB) (chatID : String)
    (userQuery : String) : List PromptContent :=
  let chatHistoryMsgs := GetLastNMessagesByChatID db chatID 5
  let relevantContext :=
    match GetRelevantContext sqrt dataChunks embedResult with
    | .error _ => ""
    | .ok ctx => ctx
  let finalUserContent :=
    if relevantContext ≠ "" then
      "Based on our previous conversation and the following potentially relevant context from GWI market research data:\n\n--- CONTEXT START ---\n"
        ++ relevantContext ++ "\n--- CONTEXT END ---\n\nNow, please answer my question: "
        ++ userQuery
    else
      "Based on our previous conversation (if any), and noting that I couldn\x27t find specific GWI documents for your current question, please answer: "
        ++ userQuery
  chatHistoryMsgs.map (fun m => (⟨m.Sender, m.Content⟩ : PromptContent))
    ++ [⟨"user", finalUserContent⟩]

/-- Embeds `RAGService.GenerateResponse`: fetch history (a store failure would
degrade to empty history; the store model does not fail), fetch context
(failure degrades to empty context), assemble the prompt, call the gateway,
wrap its error. -/
def GenerateResponse (sqrt : ℚ → ℚ) (dataChunks : List DataChunk)
    (embedResult : Except String (List ℚ)) (sendResult : Except String GenAIResponse)
    (db : DB) (chatID : String) (userQuery : String) : Except String String :=
  match GetChatCompletion sendResult
      (assembledPrompt sqrt dataChunks embedResult db chatID userQuery) with
  | .error e => .error ("failed to get LLM completion: " ++ e)
  | .ok t => .ok t

/-- The content the title task would be seeded with, when `PostMessage`
schedules one: among the last two stored messages (most recent first), the
first with sender "user", if its content is non-empty. -/
def titleGenerationBasis (db : DB) (chatID : String) : Option String :=
  let msgs := GetLastNMessagesByChatID db chatID 2
  if msgs.length ≥ 1 then
    match msgs.find? (fun m => m.Sender == "user") with
    | some m => if m.Content ≠ "" then some m.Content else none
    | none => none
  else none

/-- The outcome of one `PostMessage` turn: the returned value, the store
afterwards, and whether an asynchronous title-derivation task was spawned
(the task itself runs outside this model). -/
structure PostMessageResult where
  result : Except String Message
  db : DB
  titleTaskScheduled : Bool

/-- Embeds `ChatService.PostMessage`: verify the chat exists and is owned by
the caller (NotFound otherwise, no writes); persist the user message; generate
the reply, substituting the fixed fallback apology on error; persist the model
message; schedule title derivation when the chat has no title yet and a
user message with non-empty content is among the last two. -/
def PostMessage (sqrt : ℚ → ℚ) (dataChunks : List DataChunk)
    (embedResult : Except String (List ℚ)) (sendResult : Except String GenAIResponse)
    (db : DB) (chatID : String) (userID : Int) (userContent : String) : PostMessageResult :=
  match GetChatByID db chatID userID with
  | none => ⟨.error "chat not found", db, false⟩
  | some chat =>
    let userMsg : Message := ⟨chatID, "user", userContent⟩
    let db1 := CreateMessage db userMsg
    let modelContent :=
      match GenerateResponse sqrt dataChunks embedResult sendResult db1 chatID userContent with
      | .error _ => postMessageFallback
      | .ok t => t
    let modelMessage : Message := ⟨chatID, "model", modelContent⟩
    let db2 := CreateMessage db1 modelMessage
    let scheduled :=
      if chat.Title = none ∨ chat.Title = some "" then
        (titleGenerationBasis db2 chatID).isSome
      else false
    ⟨.ok modelMessage, db2, scheduled⟩

/-- The outcome of `ChatService.CreateChat`: the chat and messages returned,
the store afterwards, whether the generation gateway was called, and whether
a title-derivation task was spawned. -/
structure CreateChatResult where
  chat : Chat
  messages : List Message
  db : DB
  generationGatewayCalled : Bool
  titleTaskScheduled : Bool

/-- Embeds `ChatService.CreateChat`: create the chat with no title (the store
assigns the uuid, passed here as `newChatID`); when a first message is
present and non-empty, persist it, generate and persist the reply
(fallback on error), and schedule title derivation; otherwise return the
fresh chat with no messages and no further effects. -/
def CreateChat (sqrt : ℚ → ℚ) (dataChunks : List DataChunk)
    (embedResult : Except String (List ℚ)) (sendResult : Except String GenAIResponse)
    (db : DB) (newChatID : String) (userID : Int)
    (firstMessageContent : Option String) : CreateChatResult :=
  let chat : Chat := ⟨newChatID, userID, none⟩
  let db0 : DB := { db with chats := db.chats ++ [chat] }
  match firstMessageContent with
  | none => ⟨chat, [], db0, false, false⟩
  | some content =>
    if content = "" then ⟨chat, [], db0, false, false⟩
    else
      let userMsg : Message := ⟨newChatID, "user", content⟩
      let db1 := CreateMessage db0 userMsg
      let modelContent :=
        match GenerateResponse sqrt dataChunks embedResult sendResult db1 newChatID content with
        | .error _ => createChatFallback
        | .ok t => t
      let modelMsg : Message := ⟨newChatID, "model", modelContent⟩
      let db2 := CreateMessage db1 modelMsg
      ⟨chat, [userMsg, modelMsg], db2, true, true⟩

lemma assembledPrompt_getLast? (sqrt : ℚ → ℚ) (dataChunks : List DataChunk)
    (embedResult : Except String (List ℚ)) (db : DB) (chatID : String) (userQuery : String) :
    ∃ fin : String,
      (assembledPrompt sqrt dataChunks embedResult db chatID userQuery).getLast?
        = some ⟨"user", fin⟩ := by
  simp only [assembledPrompt]
  exact ⟨_, List.getLast?_concat _⟩

lemma getChatCompletion_assembled (sendResult : Except String GenAIResponse) (sqrt : ℚ → ℚ)
    (dataChunks : List DataChunk) (embedResult : Except String (List ℚ)) (db : DB)
    (chatID : String) (userQuery : String) :
    GetChatCompletion sendResult (assembledPrompt sqrt dataChunks embedResult db chatID userQuery)
      = match sendResult with
        | .error e => .error ("gemini chat SendMessage failed: " ++ e)
        | .ok none => .ok emptyResponseMessage
        | .ok (some parts) =>
          if parts.length = 0 then .ok emptyResponseMessage
          else
            if (partsText parts).length = 0 then .ok nonTextResponseMessage
            else .ok (partsText parts) := by
  obtain ⟨fin, hlast⟩ :=
    assembledPrompt_getLast? sqrt dataChunks embedResult db chatID userQuery
  rw [GetChatCompletion.eq_def, hlast]
  dsimp only
  rw [if_neg (fun h => h rfl)]

lemma generateResponse_eq (sqrt : ℚ → ℚ) (dataChunks : List DataChunk)
    (embedResult : Except String (List ℚ)) (sendResult : Except String GenAIResponse)
    (db : DB) (chatID : String) (userQuery : String) :
    GenerateResponse sqrt dataChunks embedResult sendResult db chatID userQuery
      = match sendResult with
        | .error e =>
          .error ("failed to get LLM completion: " ++ ("gemini chat SendMessage failed: " ++ e))
        | .ok none => .ok emptyResponseMessage
        | .ok (some parts) =>
          if parts.length = 0 then .ok emptyResponseMessage
          else
            if (partsText parts).length = 0 then .ok nonTextResponseMessage
            else .ok (partsText parts) := by
  rw [GenerateResponse, getChatCompletion_assembled]
  cases sendResult with
  | error e => rfl
  | ok r =>
    cases r with
    | none => rfl
    | some parts =>
      dsimp only
      by_cases h0 : parts.length = 0
      · rw [if_pos h0]
      · rw [if_neg h0]
        by_cases h1 : (partsText parts).length = 0
        · rw [if_pos h1]
        · rw [if_neg h1]

/-- C4, counterexample: when the gateway call itself succeeds but returns an
empty response, the persisted model message is the canned empty-response
message, which differs from the fixed fallback apology string the claim
names for all failure modes: the code uses three distinct canned strings. -/
theorem postMessage_single_fallback_counterexample :
    (PostMessage idSqrt [] (.ok []) (.ok none) ⟨[⟨"chat1", 1, none⟩], []⟩ "chat1" 1 "hi").result
      = .ok ⟨"chat1", "model", emptyResponseMessage⟩
    ∧ emptyResponseMessage ≠ postMessageFallback := by
  constructor
  · with_unfolding_all rfl
  · decide

/-- C4 (amended: the persisted content is the fixed fallback apology string
when the gateway call fails, and a distinct fixed canned message when the
response is empty or holds no text): in every failure mode PostMessage still
persists and returns a model message with sender "model" whose content is one
of the fixed canned strings, never the raw gateway error. -/
theorem postMessage_gateway_failure_fallback :
    ∀ (sqrt : ℚ → ℚ) (dataChunks : List DataChunk) (embedResult : Except String (List ℚ))
      (db : DB) (chatID : String) (userID : Int) (userContent : String) (chat : Chat),
      GetChatByID db chatID userID = some chat →
      (∀ e : String,
        (PostMessage sqrt dataChunks embedResult (.error e) db chatID userID userContent).result
            = .ok ⟨chatID, "model", postMessageFallback⟩
        ∧ (PostMessage sqrt dataChunks embedResult (.error e)
            db chatID userID userContent).db.messages
            = db.messages ++ [⟨chatID, "user", userContent⟩,
                ⟨chatID, "model", postMessageFallback⟩])
      ∧ ((PostMessage sqrt dataChunks embedResult (.ok none) db chatID userID userContent).result
            = .ok ⟨chatID, "model", emptyResponseMessage⟩
        ∧ (PostMessage sqrt dataChunks embedResult (.ok none)
            db chatID userID userContent).db.messages
            = db.messages ++ [⟨chatID, "user", userContent⟩,
                ⟨chatID, "model", emptyResponseMessage⟩])
      ∧ ((PostMessage sqrt dataChunks embedResult (.ok (some []))
            db chatID userID userContent).result
            = .ok ⟨chatID, "model", emptyResponseMessage⟩
        ∧ (PostMessage sqrt dataChunks embedResult (.ok (some []))
            db chatID userID userContent).db.messages
            = db.messages ++ [⟨chatID, "user", userContent⟩,
                ⟨chatID, "model", emptyResponseMessage⟩])
      ∧ (∀ parts : List GenAIPart, parts ≠ [] → partsText parts = "" →
        (PostMessage sqrt dataChunks embedResult (.ok (some parts))
            db chatID userID userContent).result
            = .ok ⟨chatID, "model", nonTextResponseMessage⟩
        ∧ (PostMessage sqrt dataChunks embedResult (.ok (some parts))
            db chatID userID userContent).db.messages
            = db.messages ++ [⟨chatID, "user", userContent⟩,
                ⟨chatID, "model", nonTextResponseMessage⟩]) := by
  intro sqrt dataChunks embedResult db chatID userID userContent chat h
  refine ⟨fun e => ?_, ?_, ?_, fun parts hne hpt => ?_⟩
  · simp [PostMessage, h, generateResponse_eq, CreateMessage, List.append_assoc]
  · simp [PostMessage, h, generateResponse_eq, CreateMessage, List.append_assoc]
  · simp [PostMessage, h, generateResponse_eq, CreateMessage, List.append_assoc]
  · have h0 : ¬(parts.length = 0) := fun hl => hne (List.length_eq_zero.mp hl)
    have h1 : (partsText parts).length = 0 := by rw [hpt]; rfl
    simp [PostMessage, h, generateResponse_eq, if_neg h0, if_pos h1, CreateMessage,
      List.append_assoc]
    rw [if_neg hne]

/-- C4 witness: a failing gateway call on an existing chat yields the fixed
fallback apology, persisted with sender "model". -/
theorem postMessage_gateway_failure_fallback_witness :
    (PostMessage idSqrt [] (.ok []) (.error "boom") ⟨[⟨"chat1", 1, none⟩], []⟩
        "chat1" 1 "hi").result
      = .ok ⟨"chat1", "model", postMessageFallback⟩
    ∧ (PostMessage idSqrt [] (.ok []) (.error "boom") ⟨[⟨"chat1", 1, none⟩], []⟩
        "chat1" 1 "hi").db.messages
      = [⟨"chat1", "user", "hi"⟩, ⟨"chat1", "model", postMessageFallback⟩] :=
  ((postMessage_gateway_failure_fallback idSqrt [] (.ok []) ⟨[⟨"chat1", 1, none⟩], []⟩
      "chat1" 1 "hi" ⟨"chat1", 1, none⟩ rfl).1 "boom")

/-- C5: posting to a chat id that does not exist for this user returns the
not-found error, leaves the store untouched, and schedules nothing. -/
theorem postMessage_chat_not_found :
    ∀ (sqrt : ℚ → ℚ) (dataChunks : List DataChunk) (embedResult : Except String (List ℚ))
      (sendResult : Except String GenAIResponse) (db : DB) (chatID : String) (userID : Int)
      (userContent : String),
      GetChatByID db chatID userID = none →
      PostMessage sqrt dataChunks embedResult sendResult db chatID userID userContent
        = ⟨.error "chat not found", db, false⟩ := by
  intro sqrt dataChunks embedResult sendResult db chatID userID userContent h
  rw [PostMessage, h]

/-- C5 witness: posting to an empty store. -/
theorem postMessage_chat_not_found_witness :
    PostMessage idSqrt [] (.ok []) (.ok none) ⟨[], []⟩ "nochat" 1 "hi"
      = ⟨.error "chat not found", ⟨[], []⟩, false⟩ :=
  postMessage_chat_not_found idSqrt [] (.ok []) (.ok none) ⟨[], []⟩ "nochat" 1 "hi" rfl

/-- A store with one chat and two messages, stored in chronological order:
first a user message, then a model message. -/
def historyDB : DB :=
  ⟨[⟨"chat1", 1, none⟩], [⟨"chat1", "user", "first"⟩, ⟨"chat1", "model", "second"⟩]⟩

/-- C3, counterexample: on a chat whose stored history is user:"first" then
model:"second", the prompt history GenerateResponse assembles is
[model:"second", user:"first"] — most recent first — whereas the claim
requires the chronologically ascending [user:"first", model:"second"]:
the rows come back from `ORDER BY timestamp DESC` and are appended to the
prompt in that order, never re-reversed. -/
theorem generateResponse_history_order_counterexample :
    (assembledPrompt idSqrt [] (.ok []) historyDB "chat1" "q").dropLast
      = [⟨"model", "second"⟩, ⟨"user", "first"⟩]
    ∧ ((messagesByChat historyDB "chat1").reverse.take 5).reverse.map
        (fun m => (⟨m.Sender, m.Content⟩ : PromptContent))
      = [⟨"user", "first"⟩, ⟨"model", "second"⟩]
    ∧ ([(⟨"model", "second"⟩ : PromptContent), ⟨"user", "first"⟩]
        ≠ [(⟨"user", "first"⟩ : PromptContent), ⟨"model", "second"⟩]) := by
  refine ⟨by with_unfolding_all rfl, by with_unfolding_all rfl, by decide⟩

/-- C3 (amended: the history is ordered chronologically descending, most
recent first, not ascending): the prompt consists of the at most 5 most
recent stored messages of the chat, most recent first, followed by one final
user turn. -/
theorem generateResponse_history_recent_descending :
    ∀ (sqrt : ℚ → ℚ) (dataChunks : List DataChunk) (embedResult : Except String (List ℚ))
      (db : DB) (chatID : String) (userQuery : String),
      (assembledPrompt sqrt dataChunks embedResult db chatID userQuery).dropLast
        = ((messagesByChat db chatID).reverse.take 5).map
            (fun m => (⟨m.Sender, m.Content⟩ : PromptContent))
      ∧ (assembledPrompt sqrt dataChunks embedResult db chatID userQuery).dropLast.length ≤ 5
      ∧ (assembledPrompt sqrt dataChunks embedResult db chatID userQuery).getLast?.map
          (fun c => c.Role) = some "user" := by
  intro sqrt dataChunks embedResult db chatID userQuery
  have hdrop : (assembledPrompt sqrt dataChunks embedResult db chatID userQuery).dropLast
      = ((messagesByChat db chatID).reverse.take 5).map
          (fun m => (⟨m.Sender, m.Content⟩ : PromptContent)) := by
    simp only [assembledPrompt, GetLastNMessagesByChatID]
    rw [List.dropLast_concat]
  refine ⟨hdrop, ?_, ?_⟩
  · rw [hdrop, List.length_map, List.length_take]
    exact min_le_left _ _
  · obtain ⟨fin, hlast⟩ :=
      assembledPrompt_getLast? sqrt dataChunks embedResult db chatID userQuery
    rw [hlast]
    rfl

/-- C10: creating a chat with an absent or empty first message succeeds and
returns the fresh chat with no title and no messages; the store gains only
the chat row, no message is persisted, the generation gateway is not called,
and no title-derivation task is scheduled. -/
theorem createChat_empty_first_message_frame :
    ∀ (sqrt : ℚ → ℚ) (dataChunks : List DataChunk) (embedResult : Except String (List ℚ))
      (sendResult : Except String GenAIResponse) (db : DB) (newChatID : String) (userID : Int)
      (firstMessageContent : Option String),
      firstMessageContent = none ∨ firstMessageContent = some "" →
      CreateChat sqrt dataChunks embedResult sendResult db newChatID userID firstMessageContent
        = ⟨⟨newChatID, userID, none⟩, [],
            { db with chats := db.chats ++ [⟨newChatID, userID, none⟩] }, false, false⟩ := by
  intro sqrt dataChunks embedResult sendResult db newChatID userID firstMessageContent h
  rcases h with h | h
  · subst h
    rw [CreateChat]
  · subst h
    rw [CreateChat]
    rw [if_pos rfl]

/-- C10 witness: creating a chat in an empty store with no first message. -/
theorem createChat_empty_first_message_frame_witness :
    CreateChat idSqrt [] (.ok []) (.ok none) ⟨[], []⟩ "newchat" 7 none
      = ⟨⟨"newchat", 7, none⟩, [], ⟨[⟨"newchat", 7, none⟩], []⟩, false, false⟩ :=
  createChat_empty_first_message_frame idSqrt [] (.ok []) (.ok none) ⟨[], []⟩ "newchat" 7 none
    (Or.inl rfl)
